import Mathlib

/-!
Verification of the attachment-storage subsystem of the JobApplicationTracker
repository: a shallow embedding of `src/api/blob.js`, the upload endpoint
handlers (`src/api/uploads/index.js`, the `api/uploads/[id]` handler, the
`POST /api/uploads/create` handler), the job-deletion cascade in
`src/api/jobs/[id].js`, and the client-side two-phase upload helper
`uploadFileToServer` from the React app.

Environment variables are modelled as an explicit `Env` record of
`Option String` values; JavaScript truthiness of an environment variable
(`undefined` and the empty string are falsy) is modelled by `truthy`.
Network and filesystem effects are modelled by explicit oracle records
(`World`, `DeleteWorld`) that decide whether each remote call succeeds,
throws, or returns a particular body.  Exceptions are modelled with
`Except String`; functions whose JavaScript counterparts catch every
exception are total.
-/

deriving instance DecidableEq for Except

namespace JobTracker

/-- Structural character-list comparison used to model `String.prototype.startsWith`. -/
def charsLead : List Char → List Char → Bool
  | [], _ => true
  | _ :: _, [] => false
  | a :: as, b :: bs => a == b && charsLead as bs

/-- `s.startsWith(p)` on JavaScript strings. -/
def strStartsWith (s p : String) : Bool :=
  charsLead p.toList s.toList

/-- The environment-variable configuration read by `src/api/blob.js` and the
upload handlers.  `none` models an unset variable.  `sdkAvailable` models
whether the `@aws-sdk` modules loaded (the `try/require` at the top of
`blob.js`). -/
structure Env where
  r2AccessKeyId : Option String := none
  r2SecretAccessKey : Option String := none
  r2Bucket : Option String := none
  r2Endpoint : Option String := none
  r2AccountId : Option String := none
  r2PublicUrlPfx : Option String := none
  vercelBlobUploadUrl : Option String := none
  vercelBlobPublicUrlPfx : Option String := none
  blobReadWriteToken : Option String := none
  vercelBlobRwToken : Option String := none
  blobProvider : Option String := none
  enforceRemoteUploads : Option String := none
  sdkAvailable : Bool := true
  deriving Repr, DecidableEq

/-- JavaScript truthiness of an optional environment string: `undefined`
and `""` are falsy. -/
def truthy : Option String → Bool
  | none => false
  | some s => !(s == "")

/-- JavaScript `a || b` on two optional strings (empty strings are falsy). -/
def jsOr (a b : Option String) : Option String :=
  if truthy a then a else b

/-- JavaScript `a || d` where `d` is a string literal default. -/
def orDefault (a : Option String) (d : String) : String :=
  match a with
  | some s => if s == "" then d else s
  | none => d

/-- `process.env.BLOB_READ_WRITE_TOKEN || process.env.VERCEL_BLOB_READ_WRITE_TOKEN`. -/
def rwToken (e : Env) : Option String :=
  jsOr e.blobReadWriteToken e.vercelBlobRwToken

/-- `(process.env.ENFORCE_REMOTE_UPLOADS || 'false') === 'true'`. -/
def enforce (e : Env) : Bool :=
  orDefault e.enforceRemoteUploads "false" == "true"

/-- `R2_ACCESS_KEY_ID && R2_SECRET_ACCESS_KEY && R2_BUCKET` (truthiness). -/
def hasR2 (e : Env) : Bool :=
  truthy e.r2AccessKeyId && truthy e.r2SecretAccessKey && truthy e.r2Bucket

/-- `getR2Client` returns a non-null client exactly when the SDK loaded and
all three R2 credentials are present. -/
def r2ClientAvailable (e : Env) : Bool :=
  e.sdkAvailable && hasR2 e

/-- `s.replace(/\/+$/, '')`: strip every trailing slash. -/
def stripTrailingSlashes (s : String) : String :=
  String.mk ((s.toList.reverse.dropWhile (fun c => c = '/')).reverse)

/-- `url.replace(/^\//, '')`: strip one leading slash. -/
def dropLeadingSlash (s : String) : String :=
  if strStartsWith s "/" then String.mk (s.toList.drop 1) else s

/-- Characters `encodeURIComponent` leaves unescaped. -/
def isUnreservedChar (c : Char) : Bool :=
  c.isAlphanum || c = '-' || c = '_' || c = '.' || c = '!' || c = '~' ||
    c = '*' || c = '\'' || c = '(' || c = ')'

/-- Upper-case hexadecimal digit for `n < 16`. -/
def hexDigit (n : Nat) : Char :=
  if n < 10 then Char.ofNat (48 + n) else Char.ofNat (55 + n)

/-- Percent-encoding of one byte. -/
def percentEncodeByte (b : Nat) : String :=
  String.mk ['%', hexDigit (b / 16), hexDigit (b % 16)]

/-- UTF-8 byte sequence of a character (as natural numbers). -/
def utf8Bytes (c : Char) : List Nat :=
  let n := c.toNat
  if n < 0x80 then [n]
  else if n < 0x800 then [0xC0 + n / 0x40, 0x80 + n % 0x40]
  else if n < 0x10000 then
    [0xE0 + n / 0x1000, 0x80 + (n / 0x40) % 0x40, 0x80 + n % 0x40]
  else
    [0xF0 + n / 0x40000, 0x80 + (n / 0x1000) % 0x40,
     0x80 + (n / 0x40) % 0x40, 0x80 + n % 0x40]

/-- JavaScript `encodeURIComponent`. -/
def encodeURIComponent (s : String) : String :=
  String.join (s.toList.map (fun c =>
    if isUnreservedChar c then String.singleton c
    else String.join ((utf8Bytes c).map percentEncodeByte)))

/-- Result object of the `save*` family in `blob.js`.  `hasUploadURLNull`
records that the object carries an explicit `uploadURL: null` field (the
fallback objects built in `saveRemote`); `size` is absent on those fallback
objects. -/
structure SavedBlob where
  url : Option String := none
  key : String := ""
  size : Option Nat := none
  hasUploadURLNull : Bool := false
  fallback : Bool := false
  deriving Repr, DecidableEq

/-- Observable side effects of the blob helper. -/
inductive Effect where
  | localWrite (path : String)
  | r2Put (key : String)
  | vercelCreate (url : String)
  | putFetch (url : String)
  deriving Repr, DecidableEq

/-- Shape of the JSON object a provider may return from a signed-URL
"create" call, and of the object the `/api/uploads/create` endpoint
returns.  Each field is `none` when absent, `some none` when present with
value `null`, and `some (some s)` when present with a string value. -/
structure CreateOut where
  uploadURL : Option (Option String) := none
  uploadUrl : Option (Option String) := none
  signedUrl : Option (Option String) := none
  upload_url : Option (Option String) := none
  url : Option (Option String) := none
  key : Option (Option String) := none
  storageKey : Option (Option String) := none
  publicUrl : Option (Option String) := none
  publicURL : Option (Option String) := none
  name : Option (Option String) := none
  fallback : Bool := false
  deriving Repr, DecidableEq

/-- Truthiness of a possibly-absent, possibly-null JSON string field. -/
def fieldTruthy : Option (Option String) → Bool
  | some (some s) => !(s == "")
  | _ => false

/-- The string value of a JSON field when it is truthy. -/
def fieldVal : Option (Option String) → Option String
  | some (some s) => if s == "" then none else some s
  | _ => none

/-- JavaScript `a || b` over JSON fields, keeping the first truthy value. -/
def fieldOr (a : Option (Option String)) (b : Option String) : Option String :=
  if fieldTruthy a then fieldVal a else b

/-- Body of the JSON response a PUT to a signed upload URL may return. -/
structure PutBody where
  url : Option String := none
  key : Option String := none
  deriving Repr, DecidableEq

/-- Oracle for the outcome of the remote calls performed by `blob.js`:
whether the provider "create" call succeeds and what body it returns,
whether the PUT to the signed URL throws or fails, whether the R2 SDK
calls throw, and what signed URLs the R2 signer produces. -/
structure World where
  createOk : Bool := true
  createBody : Option CreateOut := none
  putThrows : Bool := false
  putOk : Bool := true
  putBody : Option PutBody := none
  r2PutThrows : Bool := false
  r2SignThrows : Bool := false
  r2SignedPutUrl : String := "https://r2.example/signed-put"
  r2GetSignThrows : Bool := false
  r2SignedGetUrl : String := "https://r2.example/signed-get"
  deriving Repr, DecidableEq

/-- `saveLocal(filename, buffer)` from `blob.js` (lines 19-41): writes the
buffer under `public/uploads/` and returns either a public-URL-prefixed
result (when `VERCEL_BLOB_PUBLIC_URL_PREFIX` is set) or the local
`/uploads/<filename>` result.  The byte buffer is modelled by its length. -/
def saveLocal (e : Env) (filename : String) (bufLen : Nat) :
    List Effect × SavedBlob :=
  let eff := [Effect.localWrite ("public/uploads/" ++ filename)]
  if truthy e.vercelBlobPublicUrlPfx then
    let pfx := stripTrailingSlashes (e.vercelBlobPublicUrlPfx.getD "")
    (eff, { url := some (pfx ++ "/" ++ encodeURIComponent filename),
            key := filename, size := some bufLen })
  else
    (eff, { url := some ("/uploads/" ++ filename),
            key := "uploads/" ++ filename, size := some bufLen })

/-- `process.env.R2_ENDPOINT || (process.env.R2_ACCOUNT_ID ? "https://<id>.r2.cloudflarestorage.com" : undefined)`. -/
def r2EndpointOf (e : Env) : Option String :=
  if truthy e.r2Endpoint then e.r2Endpoint
  else if truthy e.r2AccountId then
    some ("https://" ++ e.r2AccountId.getD "" ++ ".r2.cloudflarestorage.com")
  else none

/-- `saveR2(filename, buffer, opts)` from `blob.js` (lines 60-77): throws
when no R2 client is configured, performs the PUT (which may throw per the
world oracle), and builds the result URL from the public prefix or the
endpoint. -/
def saveR2 (e : Env) (w : World) (filename : String) (bufLen : Nat)
    (optsPublicPfx : Option String) : List Effect × Except String SavedBlob :=
  if !r2ClientAvailable e then
    ([], .error "R2 client not configured (missing R2_ACCESS_KEY_ID / R2_SECRET_ACCESS_KEY / R2_BUCKET)")
  else
    let bucket := e.r2Bucket.getD ""
    let eff := [Effect.r2Put filename]
    if w.r2PutThrows then (eff, .error "R2 put failed")
    else
      let publicPfx := jsOr e.r2PublicUrlPfx optsPublicPfx
      if truthy publicPfx then
        let pfx := stripTrailingSlashes (publicPfx.getD "")
        (eff, .ok { url := some (pfx ++ "/" ++ encodeURIComponent filename),
                    key := filename, size := some bufLen })
      else
        let url := match r2EndpointOf e with
          | some ep => some (ep ++ "/" ++ bucket ++ "/" ++ encodeURIComponent filename)
          | none => none
        (eff, .ok { url := url, key := filename, size := some bufLen })

/-- The fallback taken at each failure point of `saveRemote` when
enforcement is off: a `{uploadURL: null, url: <public prefix url>, key,
fallback: true}` object when `VERCEL_BLOB_PUBLIC_URL_PREFIX` is set,
otherwise a full fall-through to `saveLocal`.  (`blob.js` repeats this
block verbatim at lines 112-120, 132-138, 148-155 and 161-167.) -/
def remoteFallback (e : Env) (filename : String) (bufLen : Nat) :
    List Effect × SavedBlob :=
  if truthy e.vercelBlobPublicUrlPfx then
    let pfx := stripTrailingSlashes (e.vercelBlobPublicUrlPfx.getD "")
    ([], { url := some (pfx ++ "/" ++ encodeURIComponent filename),
           key := filename, size := none, hasUploadURLNull := true,
           fallback := true })
  else
    saveLocal e filename bufLen

/-- `createBody?.uploadURL || createBody?.uploadUrl || createBody?.url || createBody?.signedUrl`
(`blob.js` line 124), followed by the redundant line-125 re-check of
`createBody.url`. -/
def createBodyUploadUrl (b : Option CreateOut) : Option String :=
  match b with
  | none => none
  | some cb =>
      let u := fieldOr cb.uploadURL (fieldOr cb.uploadUrl (fieldOr cb.url (fieldVal cb.signedUrl)))
      match u with
      | some v => some v
      | none => if fieldTruthy cb.url then fieldVal cb.url else none

/-- `saveRemote(filename, buffer, opts)` from `blob.js` (lines 79-182). -/
def saveRemote (e : Env) (w : World) (filename : String) (bufLen : Nat)
    (optsUploadUrl optsPublicPfx : Option String) :
    List Effect × Except String SavedBlob :=
  let uploadUrl0 := jsOr optsUploadUrl e.vercelBlobUploadUrl
  let tok := rwToken e
  let enf := enforce e
  -- step 1: if no upload URL but a token exists, ask Vercel to create one
  let step1 : List Effect × Except String (Option String) :=
    if !truthy uploadUrl0 && truthy tok then
      let eff := [Effect.vercelCreate "https://api.vercel.com/v1/blob"]
      if !w.createOk then (eff, .error "Vercel blob create failed")
      else
        let u := createBodyUploadUrl w.createBody
        if !truthy u then
          (eff, .error "Vercel blob create response did not contain an upload URL")
        else (eff, .ok u)
    else ([], .ok uploadUrl0)
  match step1 with
  | (eff, .error msg) =>
      -- a failing create call raises only under enforcement; the
      -- missing-upload-URL case raises unconditionally (line 126)
      if msg == "Vercel blob create failed" then
        if enf then (eff, .error msg)
        else
          let (eff2, r) := remoteFallback e filename bufLen
          (eff ++ eff2, .ok r)
      else (eff, .error msg)
  | (eff, .ok uploadUrl?) =>
      if !truthy uploadUrl? then
        if enf then (eff, .error "No upload URL available for remote blob uploads")
        else
          let (eff2, r) := remoteFallback e filename bufLen
          (eff ++ eff2, .ok r)
      else
        let u := uploadUrl?.getD ""
        let eff := eff ++ [Effect.putFetch u]
        if w.putThrows then
          if enf then (eff, .error "PUT to uploadUrl failed")
          else
            let (eff2, r) := remoteFallback e filename bufLen
            (eff ++ eff2, .ok r)
        else if !w.putOk then
          if enf then (eff, .error "Remote blob upload failed")
          else
            let (eff2, r) := remoteFallback e filename bufLen
            (eff ++ eff2, .ok r)
        else
          -- success: derive the result URL from the PUT body, the public
          -- prefix (unstripped, line 175) or the upload URL itself
          let publicPfx := jsOr e.vercelBlobPublicUrlPfx optsPublicPfx
          let derived := if truthy publicPfx then publicPfx.getD "" ++ "/" ++ filename else u
          let url := match w.putBody with
            | some pb => if truthy pb.url then pb.url.getD "" else derived
            | none => derived
          let key := match w.putBody with
            | some pb => if truthy pb.key then pb.key.getD "" else filename
            | none => filename
          (eff, .ok { url := some url, key := key, size := some bufLen })

/-- The per-call backend selection inlined in `module.exports.save`
(`blob.js` lines 262-268): start from `BLOB_PROVIDER || 'local'`, force
`'r2'` when all R2 credentials are present, and upgrade `'local'` to
`'vercel'` when a read/write token is present. -/
def selectProvider (e : Env) : String :=
  let p0 := orDefault e.blobProvider "local"
  let p1 := if hasR2 e then "r2" else p0
  if truthy (rwToken e) && p1 == "local" then "vercel" else p1

/-- `module.exports.save` from `blob.js` (lines 260-278). -/
def save (e : Env) (w : World) (filename : String) (bufLen : Nat)
    (optsUploadUrl optsPublicPfx : Option String) :
    List Effect × Except String SavedBlob :=
  let p := selectProvider e
  if p == "r2" then saveR2 e w filename bufLen optsPublicPfx
  else if p == "vercel" || p == "remote" then
    saveRemote e w filename bufLen optsUploadUrl optsPublicPfx
  else
    let (eff, r) := saveLocal e filename bufLen
    (eff, .ok r)

/-- `createSignedUrlR2(filename, opts)` from `blob.js` (lines 185-195):
`none` when the R2 client or signer is unavailable, an exception when the
signer throws, otherwise `{uploadURL: <signed>, url, key: filename}` where
`url` comes from `R2_PUBLIC_URL_PREFIX` (unstripped) or `R2_ENDPOINT`. -/
def createSignedUrlR2 (e : Env) (w : World) (filename : String) :
    Except String (Option CreateOut) :=
  if !r2ClientAvailable e then .ok none
  else if w.r2SignThrows then .error "getSignedUrl failed"
  else
    let bucket := e.r2Bucket.getD ""
    let url : Option String :=
      if truthy e.r2PublicUrlPfx then
        some (e.r2PublicUrlPfx.getD "" ++ "/" ++ encodeURIComponent filename)
      else if truthy e.r2Endpoint then
        some (e.r2Endpoint.getD "" ++ "/" ++ bucket ++ "/" ++ encodeURIComponent filename)
      else none
    .ok (some { uploadURL := some (some w.r2SignedPutUrl), url := some url,
                key := some (some filename) })

/-- The `{uploadURL: null, url, key, fallback: true}` object built by
`createSignedUrl` when no token is available or the create call fails:
public-prefix variant when `VERCEL_BLOB_PUBLIC_URL_PREFIX` is set,
otherwise the local-path variant. -/
def signedUrlFallback (e : Env) (filename : String) : CreateOut :=
  if truthy e.vercelBlobPublicUrlPfx then
    let pfx := stripTrailingSlashes (e.vercelBlobPublicUrlPfx.getD "")
    { uploadURL := some none,
      url := some (some (pfx ++ "/" ++ encodeURIComponent filename)),
      key := some (some filename), fallback := true }
  else
    { uploadURL := some none,
      url := some (some ("/uploads/" ++ filename)),
      key := some (some ("uploads/" ++ filename)), fallback := true }

/-- `createSignedUrl(filename, opts)` from `blob.js` (lines 209-258):
prefer the R2 signer (its exceptions are swallowed), then the Vercel
token flow with enforcement-controlled fallbacks, returning the provider
body verbatim (`createBody || {}`) on success. -/
def createSignedUrl (e : Env) (w : World) (filename : String) :
    List Effect × Except String CreateOut :=
  let tok := rwToken e
  let enf := enforce e
  -- try { r2Signed = await createSignedUrlR2(...); if (r2Signed) return r2Signed } catch ignore
  let r2Step : Option CreateOut :=
    match createSignedUrlR2 e w filename with
    | .ok (some r) => some r
    | .ok none => none
    | .error _ => none
  match r2Step with
  | some r => ([], .ok r)
  | none =>
      if !truthy tok then
        if enf then ([], .error "No read/write token available to create signed upload URL")
        else ([], .ok (signedUrlFallback e filename))
      else
        let eff := [Effect.vercelCreate "https://api.vercel.com/v1/blob"]
        if !w.createOk then
          if enf then (eff, .error "Failed to create signed upload URL")
          else (eff, .ok (signedUrlFallback e filename))
        else (eff, .ok (w.createBody.getD {}))

/-- `createSignedGetUrlR2(key, opts)` from `blob.js` (lines 198-206). -/
def createSignedGetUrlR2 (e : Env) (w : World) (key : String) :
    Except String (Option (String × String)) :=
  if !r2ClientAvailable e then .ok none
  else if w.r2GetSignThrows then .error "getSignedUrl failed"
  else .ok (some (w.r2SignedGetUrl, key))

/-- `module.exports.createSignedGetUrl` from `blob.js` (lines 284-298):
R2 signed GET when available (exceptions swallowed), else a public-prefix
URL, else `null`. -/
def createSignedGetUrl (e : Env) (w : World) (key : String) :
    Option (String × String) :=
  match createSignedGetUrlR2 e w key with
  | .ok (some r) => some r
  | _ =>
      if truthy e.r2PublicUrlPfx then
        some (e.r2PublicUrlPfx.getD "" ++ "/" ++ encodeURIComponent key, key)
      else none

/-- Responses of the `POST /api/uploads/create` handler. -/
inductive CreateResp where
  | badRequest (msg : String)
  | ok (body : CreateOut)
  | badGateway (msg : String)
  deriving Repr, DecidableEq

/-- The `POST /api/uploads/create` handler (second handler document in the
repository): validates `filename`, delegates to `createSignedUrl`, and —
when all three R2 credentials are configured — deletes the `uploadURL`,
`uploadUrl` and `signedUrl` fields from the result before responding so
the browser is steered to the server-side upload path. -/
def createUploadUrlHandler (e : Env) (w : World) (filename : Option String) :
    List Effect × CreateResp :=
  if !truthy filename then ([], .badRequest "filename required")
  else
    match createSignedUrl e w (filename.getD "") with
    | (eff, .error msg) => (eff, .badGateway msg)
    | (eff, .ok body) =>
        let hr2 := hasR2 e
        let body' := if hr2 then
            { body with uploadURL := none, uploadUrl := none, signedUrl := none }
          else body
        (eff, .ok body')

/-- The JSON body of a 200 response of the create endpoint, when any. -/
def CreateResp.bodyOf : CreateResp → Option CreateOut
  | .ok b => some b
  | _ => none

/-- Oracle for `module.exports.delete` in `blob.js`: whether the R2 and
Vercel delete calls throw or succeed, and the set of local files. -/
structure DeleteWorld where
  r2DeleteThrows : Bool := false
  vercelDeleteThrows : Bool := false
  vercelDeleteOk : Bool := false
  localFiles : List String := []
  unlinkThrows : Bool := false
  deriving Repr, DecidableEq

/-- A deletion that actually occurred during `deleteBlob`. -/
inductive DelEvent where
  | r2Deleted (key : String)
  | vercelDeleted (key : String)
  | localUnlinked (path : String)
  deriving Repr, DecidableEq

/-- `module.exports.delete` from `blob.js` (lines 301-348).  Every failure
of a provider call or of the local unlink is caught, so the function is
total (it never raises): it returns the boolean result, the list of
deletions that actually occurred, and the remaining local files. -/
def deleteBlob (e : Env) (w : DeleteWorld) (key url : Option String) :
    Bool × List DelEvent × List String :=
  if hasR2 e && truthy key && r2ClientAvailable e && !w.r2DeleteThrows then
    (true, [DelEvent.r2Deleted (key.getD "")], w.localFiles)
  else if truthy (rwToken e) && truthy key && !w.vercelDeleteThrows && w.vercelDeleteOk then
    (true, [DelEvent.vercelDeleted (key.getD "")], w.localFiles)
  else
    match url with
    | some u =>
        if !(u == "") && strStartsWith u "/uploads/" then
          let localPath := "public/" ++ dropLeadingSlash u
          if localPath ∈ w.localFiles then
            if w.unlinkThrows then (false, [], w.localFiles)
            else (true, [DelEvent.localUnlinked localPath],
                  w.localFiles.filter (fun p => p ≠ localPath))
          else (false, [], w.localFiles)
        else (false, [], w.localFiles)
    | none => (false, [], w.localFiles)

/-- Actions performed by the client-side `uploadFileToServer` helper. -/
inductive ClientAction where
  | createReq
  | relayPost (uploadUrl : Option String)
  | clientPut (url : String)
  | metaPost
  deriving Repr, DecidableEq

/-- `createBody.uploadURL || createBody.uploadUrl || createBody.signedUrl || createBody.upload_url || createBody.url`
(client, line 598). -/
def clientUploadUrlOf (b : CreateOut) : Option String :=
  fieldOr b.uploadURL (fieldOr b.uploadUrl (fieldOr b.signedUrl
    (fieldOr b.upload_url (fieldVal b.url))))

/-- The client-side `uploadFileToServer` helper (React app, lines 575-671):
phase-1 negotiation, then either the base64 server-relay (when no upload
URL was returned), the server-relay with a pass-through `uploadUrl` (when
the upload URL is cross-origin), or a direct browser PUT followed by the
metadata POST.  `parseOrigin` models `new URL(u).origin` (`none` = the
constructor throws, which the surrounding catch rethrows). -/
def uploadFileToServer (pageOrigin : String) (parseOrigin : String → Option String)
    (createRespOk : Bool) (body : CreateOut) (relayOk putOkB metaOk : Bool) :
    List ClientAction × Except String Unit :=
  let acts := [ClientAction.createReq]
  if !createRespOk then (acts, .error "failed to create upload URL")
  else
    match clientUploadUrlOf body with
    | none =>
        let acts := acts ++ [ClientAction.relayPost none]
        (acts, if relayOk then .ok () else .error "server-side upload failed")
    | some u =>
        match parseOrigin u with
        | none => (acts, .error "invalid upload URL")
        | some o =>
            if !(o == "") && !(o == pageOrigin) then
              let acts := acts ++ [ClientAction.relayPost (some u)]
              (acts, if relayOk then .ok () else .error "server-side upload failed")
            else
              let acts := acts ++ [ClientAction.clientPut u]
              if !putOkB then (acts, .error "upload failed during PUT")
              else
                let acts := acts ++ [ClientAction.metaPost]
                (acts, if metaOk then .ok ()
                       else .error "failed to persist attachment metadata")

/-- A row of the `attachments` table. -/
structure AttRow where
  id : Nat
  jobId : Option Nat := none
  filename : String := ""
  storageKey : Option String := none
  url : Option String := none
  size : Option Nat := none
  contentType : Option String := none
  deriving Repr, DecidableEq

/-- JavaScript truthiness of a numeric field (`0` is falsy). -/
def natTruthy : Option Nat → Bool
  | some n => !(n == 0)
  | none => false

/-- Responses of the `DELETE /api/uploads/[id]` handler. -/
inductive DeleteUploadResp where
  | notFound
  | okDeleted (id : Nat) (jobId : Option Nat)
  deriving Repr, DecidableEq

/-- The `DELETE /api/uploads/[id]` handler: look the row up (404 when
absent), attempt the storage delete — whose outcome `sdel`, including an
exception, is caught and ignored — then delete the metadata row and
report the deleted attachment.  The middle component lists the
`{key, url}` arguments of the storage-delete attempts. -/
def deleteUploadHandler (sdel : Option String → Option String → Except String Bool)
    (rows : List AttRow) (i : Nat) :
    List AttRow × List (Option String × Option String) × DeleteUploadResp :=
  match rows.find? (fun r => r.id == i) with
  | none => (rows, [], .notFound)
  | some att =>
      let _ := sdel att.storageKey att.url
      (rows.filter (fun r => !(r.id == i)), [(att.storageKey, att.url)],
       .okDeleted att.id att.jobId)

/-- `a.storage_key || a.key` in the job-deletion loop (`a.key` is not a
column, hence `undefined`). -/
def jobDeleteKeyArg (a : AttRow) : Option String :=
  if truthy a.storageKey then a.storageKey else none

/-- The attachment-cascade portion of the `DELETE /api/jobs/[id]` handler
(`src/api/jobs/[id].js` lines 83-113): select the owner's attachments,
attempt a best-effort storage delete for each (every exception caught),
then remove all of the owner's attachment rows.  Returns the remaining
rows and the list of storage-delete attempts. -/
def deleteJobAttachments (sdel : Option String → Option String → Except String Bool)
    (rows : List AttRow) (jid : Nat) :
    List AttRow × List (Option String × Option String) :=
  let atts := rows.filter (fun r => r.jobId == some jid)
  let attempts := atts.map (fun a =>
    let _ := sdel (jobDeleteKeyArg a) a.url
    (jobDeleteKeyArg a, a.url))
  (rows.filter (fun r => !(r.jobId == some jid)), attempts)

/-- Responses of the `GET /api/uploads/[id]` handler. -/
inductive GetUploadResp where
  | notFound (msg : String)
  | fileStream (path : String) (contentType : String)
  | redirect (location : String)
  deriving Repr, DecidableEq

/-- The `GET /api/uploads/[id]` handler (attachment-serving document,
lines 43-75): local `/uploads/` URLs are streamed from disk (404 when the
file is gone), otherwise a signed GET redirect is tried for rows with a
storage key (exceptions and null results fall through), otherwise the
stored URL is redirected to, otherwise 404.  `signedRedirectOf` is the
signed-GET sub-step: the redirect target when the row has a truthy
storage key and `createSignedGetUrl` yields a truthy URL. -/
def signedRedirectOf (e : Env) (w : World) (att : AttRow) : Option String :=
  if truthy att.storageKey then
    match createSignedGetUrl e w (att.storageKey.getD "") with
    | some (u, _) => if u == "" then none else some u
    | none => none
  else none

/-- The `GET /api/uploads/[id]` handler (continued): dispatch over the
resolution preference order. -/
def getUploadHandler (e : Env) (w : World) (localFiles : List String)
    (rows : List AttRow) (i : Nat) : GetUploadResp :=
  match rows.find? (fun r => r.id == i) with
  | none => .notFound "not found"
  | some att =>
      if truthy att.url && strStartsWith (att.url.getD "") "/uploads/" then
        let localPath := "public/" ++ dropLeadingSlash (att.url.getD "")
        if localPath ∈ localFiles then
          .fileStream localPath (orDefault att.contentType "application/octet-stream")
        else .notFound "file not found"
      else
        match signedRedirectOf e w att with
        | some u => .redirect u
        | none =>
            if truthy att.url then .redirect (att.url.getD "")
            else .notFound "no file URL available"

/-- Responses of the `POST /api/uploads` handler. -/
inductive UploadsPostResp where
  | badRequest (msg : String)
  | created (row : AttRow)
  | badGateway (msg : String)
  deriving Repr, DecidableEq

/-- `R2_PUBLIC_URL_PREFIX || R2_ENDPOINT`, the prefix used by the uploads
handler to reconstruct a public R2 URL. -/
def r2HandlerPfx (e : Env) : Option String :=
  jsOr e.r2PublicUrlPfx e.r2Endpoint

/-- The `POST /api/uploads` handler (server-relay document in
`src/api/uploads/index.js`, lines 34-123).  The direct-persist branch runs
when `url` and `storageKey` are both truthy; otherwise the relay branch
validates `filename`/`contentBase64`, inserts a metadata row with null
storage fields to obtain the id, saves the bytes under
`"<id>/<filename>"`, deletes the fresh row when the save raises, and
otherwise updates the row with the save result.  Returns the new table,
the list of filenames passed to `blob.save`, and the response.  The byte
buffer decoded from `contentBase64` is modelled by its length `bufLen`. -/
def uploadsPostHandler (e : Env) (w : World) (rows : List AttRow) (nextId : Nat)
    (jobId : Option Nat) (filename contentBase64 contentType url storageKey : Option String)
    (size : Option Nat) (uploadUrl : Option String) (bufLen : Nat) :
    List AttRow × List String × UploadsPostResp :=
  if truthy url && truthy storageKey then
    -- direct metadata persist: the client already uploaded the bytes
    let urlToSave := if truthy url then url else none
    let urlToSave :=
      if !truthy urlToSave && hasR2 e then
        match (if truthy (r2HandlerPfx e) then r2HandlerPfx e else none) with
        | some p =>
            some (stripTrailingSlashes p ++ "/" ++ e.r2Bucket.getD "" ++ "/" ++
              encodeURIComponent (orDefault storageKey (filename.getD "")))
        | none => urlToSave
      else urlToSave
    let row : AttRow :=
      { id := nextId, jobId := jobId, filename := filename.getD "",
        storageKey := storageKey, url := urlToSave,
        size := if natTruthy size then size else none,
        contentType := if truthy contentType then contentType else none }
    (rows ++ [row], [], .created row)
  else if !truthy filename || !truthy contentBase64 then
    (rows, [], .badRequest "filename and contentBase64 required")
  else
    -- create the DB record first so its id can be part of the storage key
    let fname := filename.getD ""
    let inserted : AttRow :=
      { id := nextId, jobId := jobId, filename := fname,
        storageKey := none, url := none, size := none,
        contentType := if truthy contentType then contentType else none }
    let rows1 := rows ++ [inserted]
    let storageFilename := toString nextId ++ "/" ++ fname
    match save e w storageFilename bufLen uploadUrl none with
    | (_, .error msg) =>
        -- clean up the row we created to avoid orphaned records
        (rows1.filter (fun r => !(r.id == nextId)), [storageFilename],
         .badGateway msg)
    | (_, .ok saved) =>
        let urlToSave := if truthy saved.url then saved.url else none
        let urlToSave :=
          if !truthy urlToSave && hasR2 e then
            match (if truthy (r2HandlerPfx e) then r2HandlerPfx e else none) with
            | some p =>
                some (stripTrailingSlashes p ++ "/" ++ e.r2Bucket.getD "" ++ "/" ++
                  encodeURIComponent (if saved.key == "" then storageFilename else saved.key))
            | none => urlToSave
          else urlToSave
        let updated : AttRow :=
          { inserted with
              storageKey := some (if saved.key == "" then storageFilename else saved.key),
              url := urlToSave,
              size := some (match saved.size with
                | some n => if n == 0 then bufLen else n
                | none => bufLen) }
        (rows1.map (fun r => if r.id == nextId then updated else r),
         [storageFilename], .created updated)

/-! ## Theorems -/

theorem truthy_none : truthy none = false := rfl

theorem jsOr_none_left (b : Option String) : jsOr none b = b := rfl

/-- Helper: with no token, no public-URL prefix, no explicit upload URL and
enforcement off, `saveRemote` falls through to the plain local save. -/
theorem saveRemote_no_config (e : Env) (w : World) (f : String) (n : Nat)
    (hTok : truthy (rwToken e) = false)
    (hPfx : truthy e.vercelBlobPublicUrlPfx = false)
    (hUpl : truthy e.vercelBlobUploadUrl = false)
    (hEnf : enforce e = false) :
    saveRemote e w f n none none =
      ([Effect.localWrite ("public/uploads/" ++ f)],
       .ok { url := some ("/uploads/" ++ f), key := "uploads/" ++ f,
             size := some n }) := by
  unfold saveRemote remoteFallback saveLocal
  simp [jsOr_none_left, hTok, hPfx, hUpl, hEnf]

/-- C1: with no remote backend configured (no object-store credentials, no
read/write token, no public-URL prefix, no explicit upload URL, no `r2`
provider override) and enforcement disabled, `save` succeeds without
raising, writes via the local backend, and returns
`{url: "/uploads/<filename>", storageKey: "uploads/<filename>", size: <byte length>}`. -/
theorem save_local_fallback (e : Env) (w : World) (f : String) (n : Nat)
    (hR2 : hasR2 e = false)
    (hTok : truthy (rwToken e) = false)
    (hPfx : truthy e.vercelBlobPublicUrlPfx = false)
    (hUpl : truthy e.vercelBlobUploadUrl = false)
    (hEnf : enforce e = false)
    (hProv : e.blobProvider ≠ some "r2") :
    save e w f n none none =
      ([Effect.localWrite ("public/uploads/" ++ f)],
       .ok { url := some ("/uploads/" ++ f), key := "uploads/" ++ f,
             size := some n }) := by
  have hp0 : orDefault e.blobProvider "local" ≠ "r2" := by
    cases hb : e.blobProvider with
    | none => simp [orDefault]
    | some s =>
        by_cases hs : s = ""
        · simp [orDefault, hs]
        · simp only [orDefault, hs, if_neg, beq_iff_eq, if_false]
          intro h
          exact hProv (by rw [hb, h])
  have hsel : selectProvider e = orDefault e.blobProvider "local" := by
    unfold selectProvider
    simp [hR2, hTok]
  unfold save
  rw [hsel]
  by_cases hv : (orDefault e.blobProvider "local" == "vercel" ||
      orDefault e.blobProvider "local" == "remote") = true
  · simp only [beq_iff_eq, if_neg hp0, hv, if_true]
    exact saveRemote_no_config e w f n hTok hPfx hUpl hEnf
  · simp only [beq_iff_eq, if_neg hp0, hv, if_false]
    unfold saveLocal
    simp [hPfx]

/-- Witness for `save_local_fallback`: the spec's happy-path scenario
`save("resume.pdf", <12 bytes>)` with an empty environment. -/
theorem save_local_fallback_witness :
    save {} {} "resume.pdf" 12 none none =
      ([Effect.localWrite "public/uploads/resume.pdf"],
       .ok { url := some "/uploads/resume.pdf", key := "uploads/resume.pdf",
             size := some 12 }) :=
  save_local_fallback {} {} "resume.pdf" 12 (by decide) (by decide) (by decide)
    (by decide) (by decide) (by decide)

/-- C3 counterexample: with all three object-store credentials present and
the explicit provider override `BLOB_PROVIDER=vercel`, backend selection
returns `"r2"` — the explicit override is not honored, refuting the claim
that selection follows the priority and an explicit override is honored. -/
theorem provider_override_counterexample :
    selectProvider { r2AccessKeyId := some "k", r2SecretAccessKey := some "s",
                     r2Bucket := some "b", blobProvider := some "vercel" } = "r2" := by
  decide

/-- C3 amended: `save` selects its backend per call as follows: the object
store whenever the R2 access key, secret and bucket are all present —
this auto-detection takes precedence over any explicit provider override;
otherwise, with the provider at its default `local`, a read/write token
selects the remote blob backend and its absence selects local; otherwise
an explicit `vercel`/`remote` or `r2` provider setting is honored. -/
theorem save_backend_selection (e : Env) (w : World) (f : String) (n : Nat)
    (u p : Option String) :
    (hasR2 e = true → save e w f n u p = saveR2 e w f n p)
  ∧ (hasR2 e = false → orDefault e.blobProvider "local" = "local" →
      truthy (rwToken e) = true → save e w f n u p = saveRemote e w f n u p)
  ∧ (hasR2 e = false → orDefault e.blobProvider "local" = "local" →
      truthy (rwToken e) = false →
      save e w f n u p = ((saveLocal e f n).1, .ok (saveLocal e f n).2))
  ∧ (hasR2 e = false →
      (orDefault e.blobProvider "local" = "vercel" ∨
       orDefault e.blobProvider "local" = "remote") →
      save e w f n u p = saveRemote e w f n u p)
  ∧ (hasR2 e = false → orDefault e.blobProvider "local" = "r2" →
      save e w f n u p = saveR2 e w f n p) := by
  refine ⟨?_, ?_, ?_, ?_, ?_⟩
  · intro h
    unfold save selectProvider
    simp [h]
  · intro h1 h2 h3
    unfold save selectProvider
    simp [h1, h2, h3]
  · intro h1 h2 h3
    unfold save selectProvider
    simp [h1, h2, h3]
  · intro h1 h2
    unfold save selectProvider
    rcases h2 with h2 | h2 <;> simp [h1, h2]
  · intro h1 h2
    unfold save selectProvider
    simp [h1, h2]

/-- Witness for `save_backend_selection`: concrete instantiations of each
selection branch (R2 auto-detect, token upgrade, plain local, explicit
remote override, explicit r2 override). -/
theorem save_backend_selection_witness :
    (save { r2AccessKeyId := some "k", r2SecretAccessKey := some "s",
            r2Bucket := some "b" } {} "f" 1 none none =
       saveR2 { r2AccessKeyId := some "k", r2SecretAccessKey := some "s",
                r2Bucket := some "b" } {} "f" 1 none)
  ∧ (save { blobReadWriteToken := some "t" } {} "f" 1 none none =
       saveRemote { blobReadWriteToken := some "t" } {} "f" 1 none none)
  ∧ (save {} {} "f" 1 none none =
       ((saveLocal {} "f" 1).1, .ok (saveLocal {} "f" 1).2))
  ∧ (save { blobProvider := some "remote" } {} "f" 1 none none =
       saveRemote { blobProvider := some "remote" } {} "f" 1 none none)
  ∧ (save { blobProvider := some "r2" } {} "f" 1 none none =
       saveR2 { blobProvider := some "r2" } {} "f" 1 none) :=
  ⟨(save_backend_selection _ _ "f" 1 none none).1 (by decide),
   (save_backend_selection _ _ "f" 1 none none).2.1 (by decide) (by decide) (by decide),
   (save_backend_selection _ _ "f" 1 none none).2.2.1 (by decide) (by decide) (by decide),
   (save_backend_selection _ _ "f" 1 none none).2.2.2.1 (by decide) (Or.inr (by decide)),
   (save_backend_selection _ _ "f" 1 none none).2.2.2.2 (by decide) (by decide)⟩

/-- C2 counterexample: enforcement is disabled (default) and the remote
blob backend is configured (a read/write token is present); the provider
create call succeeds but its body carries no upload URL — one of the
claim's listed failures ("no upload URL is available") — yet `save`
raises (`blob.js` line 126 throws unconditionally) instead of yielding a
fallback result. -/
theorem enforcement_disabled_raise_counterexample :
    (save { blobReadWriteToken := some "tok" }
       { createOk := true, createBody := some {} } "f.txt" 3 none none).2 =
      .error "Vercel blob create response did not contain an upload URL" := by
  decide

/-- Helper: the fallback object of `saveRemote` either carries
`fallback: true` (public-URL guess) or is the local `/uploads/` save. -/
theorem remoteFallback_shape (e : Env) (f : String) (n : Nat) :
    (remoteFallback e f n).2.fallback = true ∨
    (remoteFallback e f n).2.url = some ("/uploads/" ++ f) := by
  unfold remoteFallback saveLocal
  by_cases hp : truthy e.vercelBlobPublicUrlPfx = true
  · simp [hp]
  · rw [Bool.not_eq_true] at hp
    simp [hp]

/-- C2 amended: in the remote-blob flow, with enforcement enabled, a
failing create call, a throwing PUT, a PUT with a failing status, and a
missing upload URL all raise, and `createSignedUrl` raises on a failing
create call or a missing token; with enforcement disabled, a failing
create call and a failing PUT never raise and yield a fallback result
(a `fallback: true` public-URL guess or a local `/uploads/` save), and a
failing `createSignedUrl` create call yields a `fallback: true` result.
(Exceptions recorded by the counterexample: a successful create whose
body lacks an upload URL raises even when enforcement is disabled; the
object-store save path propagates failures regardless of the flag.) -/
theorem enforcement_behavior (e : Env) (w : World) (f : String) (n : Nat) :
    (enforce e = true → truthy (rwToken e) = true →
      truthy e.vercelBlobUploadUrl = false → w.createOk = false →
      (saveRemote e w f n none none).2 = .error "Vercel blob create failed")
  ∧ (enforce e = true → truthy e.vercelBlobUploadUrl = true → w.putThrows = true →
      (saveRemote e w f n none none).2 = .error "PUT to uploadUrl failed")
  ∧ (enforce e = true → truthy e.vercelBlobUploadUrl = true →
      w.putThrows = false → w.putOk = false →
      (saveRemote e w f n none none).2 = .error "Remote blob upload failed")
  ∧ (enforce e = true → truthy (rwToken e) = false →
      truthy e.vercelBlobUploadUrl = false →
      (saveRemote e w f n none none).2 =
        .error "No upload URL available for remote blob uploads")
  ∧ (enforce e = true → r2ClientAvailable e = false → truthy (rwToken e) = true →
      w.createOk = false →
      (createSignedUrl e w f).2 = .error "Failed to create signed upload URL")
  ∧ (enforce e = true → r2ClientAvailable e = false → truthy (rwToken e) = false →
      (createSignedUrl e w f).2 =
        .error "No read/write token available to create signed upload URL")
  ∧ (enforce e = false → truthy (rwToken e) = true →
      truthy e.vercelBlobUploadUrl = false → w.createOk = false →
      ∃ r, (saveRemote e w f n none none).2 = .ok r ∧
        (r.fallback = true ∨ r.url = some ("/uploads/" ++ f)))
  ∧ (enforce e = false → truthy e.vercelBlobUploadUrl = true → w.putThrows = true →
      ∃ r, (saveRemote e w f n none none).2 = .ok r ∧
        (r.fallback = true ∨ r.url = some ("/uploads/" ++ f)))
  ∧ (enforce e = false → truthy e.vercelBlobUploadUrl = true →
      w.putThrows = false → w.putOk = false →
      ∃ r, (saveRemote e w f n none none).2 = .ok r ∧
        (r.fallback = true ∨ r.url = some ("/uploads/" ++ f)))
  ∧ (enforce e = false → r2ClientAvailable e = false → truthy (rwToken e) = true →
      w.createOk = false →
      ∃ r, (createSignedUrl e w f).2 = .ok r ∧ r.fallback = true) := by
  refine ⟨?_, ?_, ?_, ?_, ?_, ?_, ?_, ?_, ?_, ?_⟩
  · intro h1 h2 h3 h4
    unfold saveRemote
    simp [jsOr_none_left, h1, h2, h3, h4]
  · intro h1 h2 h3
    unfold saveRemote
    simp [jsOr_none_left, h1, h2, h3]
  · intro h1 h2 h3 h4
    unfold saveRemote
    simp [jsOr_none_left, h1, h2, h3, h4]
  · intro h1 h2 h3
    unfold saveRemote
    simp [jsOr_none_left, h1, h2, h3]
  · intro h1 h2 h3 h4
    unfold createSignedUrl createSignedUrlR2
    simp [h1, h2, h3, h4]
  · intro h1 h2 h3
    unfold createSignedUrl createSignedUrlR2
    simp [h1, h2, h3]
  · intro h1 h2 h3 h4
    rcases hrf : remoteFallback e f n with ⟨eff2, r⟩
    refine ⟨r, ?_, ?_⟩
    · unfold saveRemote
      simp [jsOr_none_left, h1, h2, h3, h4, hrf]
    · have hs := remoteFallback_shape e f n
      rw [hrf] at hs
      exact hs
  · intro h1 h2 h3
    rcases hrf : remoteFallback e f n with ⟨eff2, r⟩
    refine ⟨r, ?_, ?_⟩
    · unfold saveRemote
      simp [jsOr_none_left, h1, h2, h3, hrf]
    · have hs := remoteFallback_shape e f n
      rw [hrf] at hs
      exact hs
  · intro h1 h2 h3 h4
    rcases hrf : remoteFallback e f n with ⟨eff2, r⟩
    refine ⟨r, ?_, ?_⟩
    · unfold saveRemote
      simp [jsOr_none_left, h1, h2, h3, h4, hrf]
    · have hs := remoteFallback_shape e f n
      rw [hrf] at hs
      exact hs
  · intro h1 h2 h3 h4
    refine ⟨signedUrlFallback e f, ?_, ?_⟩
    · unfold createSignedUrl createSignedUrlR2
      simp [h1, h2, h3, h4]
    · by_cases hp : truthy e.vercelBlobPublicUrlPfx = true
      · simp [signedUrlFallback, hp]
      · rw [Bool.not_eq_true] at hp
        simp [signedUrlFallback, hp]

/-- Witness for `enforcement_behavior`: each branch instantiated at a
concrete environment and world. -/
theorem enforcement_behavior_witness :
    ((saveRemote { enforceRemoteUploads := some "true", blobReadWriteToken := some "t" }
        { createOk := false } "f" 1 none none).2 = .error "Vercel blob create failed")
  ∧ ((saveRemote { enforceRemoteUploads := some "true", vercelBlobUploadUrl := some "https://u" }
        { putThrows := true } "f" 1 none none).2 = .error "PUT to uploadUrl failed")
  ∧ ((saveRemote { enforceRemoteUploads := some "true", vercelBlobUploadUrl := some "https://u" }
        { putOk := false } "f" 1 none none).2 = .error "Remote blob upload failed")
  ∧ ((saveRemote { enforceRemoteUploads := some "true" } {} "f" 1 none none).2 =
      .error "No upload URL available for remote blob uploads")
  ∧ ((createSignedUrl { enforceRemoteUploads := some "true", blobReadWriteToken := some "t" }
        { createOk := false } "f").2 = .error "Failed to create signed upload URL")
  ∧ ((createSignedUrl { enforceRemoteUploads := some "true" } {} "f").2 =
      .error "No read/write token available to create signed upload URL")
  ∧ (∃ r, (saveRemote { blobReadWriteToken := some "t" }
        { createOk := false } "f" 1 none none).2 = .ok r ∧
        (r.fallback = true ∨ r.url = some "/uploads/f"))
  ∧ (∃ r, (saveRemote { vercelBlobUploadUrl := some "https://u" }
        { putThrows := true } "f" 1 none none).2 = .ok r ∧
        (r.fallback = true ∨ r.url = some "/uploads/f"))
  ∧ (∃ r, (saveRemote { vercelBlobUploadUrl := some "https://u" }
        { putOk := false } "f" 1 none none).2 = .ok r ∧
        (r.fallback = true ∨ r.url = some "/uploads/f"))
  ∧ (∃ r, (createSignedUrl { blobReadWriteToken := some "t" }
        { createOk := false } "f").2 = .ok r ∧ r.fallback = true) :=
  ⟨(enforcement_behavior _ _ "f" 1).1 (by decide) (by decide) (by decide) (by decide),
   (enforcement_behavior _ _ "f" 1).2.1 (by decide) (by decide) (by decide),
   (enforcement_behavior _ _ "f" 1).2.2.1 (by decide) (by decide) (by decide) (by decide),
   (enforcement_behavior _ _ "f" 1).2.2.2.1 (by decide) (by decide) (by decide),
   (enforcement_behavior _ _ "f" 1).2.2.2.2.1 (by decide) (by decide) (by decide) (by decide),
   (enforcement_behavior _ _ "f" 1).2.2.2.2.2.1 (by decide) (by decide) (by decide),
   (enforcement_behavior _ _ "f" 1).2.2.2.2.2.2.1 (by decide) (by decide) (by decide) (by decide),
   (enforcement_behavior _ _ "f" 1).2.2.2.2.2.2.2.1 (by decide) (by decide) (by decide),
   (enforcement_behavior _ _ "f" 1).2.2.2.2.2.2.2.2.1 (by decide) (by decide) (by decide) (by decide),
   (enforcement_behavior _ _ "f" 1).2.2.2.2.2.2.2.2.2 (by decide) (by decide) (by decide) (by decide)⟩

/-- C4: the delete handlers attempt the storage deletion of each
attachment (recorded as the attempt list) and remove the metadata rows
regardless of the storage outcome — `sdel`, the storage-delete oracle, is
universally quantified, including always-throwing oracles.  Deleting an
owner performs one attempt per owned attachment and leaves zero metadata
rows for that owner. -/
theorem delete_cascade (sdel : Option String → Option String → Except String Bool)
    (rows : List AttRow) (i jid : Nat) :
    (rows.find? (fun r => r.id == i) = none →
       deleteUploadHandler sdel rows i = (rows, [], .notFound))
  ∧ (∀ att, rows.find? (fun r => r.id == i) = some att →
       deleteUploadHandler sdel rows i =
         (rows.filter (fun r => !(r.id == i)), [(att.storageKey, att.url)],
          .okDeleted att.id att.jobId))
  ∧ ((deleteJobAttachments sdel rows jid).2.length =
       (rows.filter (fun r => r.jobId == some jid)).length)
  ∧ ((deleteJobAttachments sdel rows jid).1.filter
       (fun r => r.jobId == some jid) = []) := by
  refine ⟨?_, ?_, ?_, ?_⟩
  · intro h
    unfold deleteUploadHandler
    rw [h]
  · intro att h
    unfold deleteUploadHandler
    rw [h]
  · unfold deleteJobAttachments
    simp
  · have key : ∀ l : List AttRow,
        (l.filter (fun r => !(r.jobId == some jid))).filter
          (fun r => r.jobId == some jid) = [] := by
      intro l
      induction l with
      | nil => rfl
      | cons a as ih =>
          by_cases h : (a.jobId == some jid) = true
          · simp [List.filter, h, ih]
          · rw [Bool.not_eq_true] at h
            simp [List.filter, h, ih]
    unfold deleteJobAttachments
    exact key rows

/-- Witness for `delete_cascade`: an owner (job 9) with two attachments
and an always-throwing storage deleter: two delete attempts, zero owner
rows left; a single-attachment delete removes only that row; an unknown
id yields the not-found response. -/
theorem delete_cascade_witness :
    (deleteUploadHandler (fun _ _ => .error "storage down")
       [{ id := 1, jobId := some 9, storageKey := some "1/a.pdf", url := some "/uploads/a.pdf" },
        { id := 2, jobId := some 9, url := some "/uploads/b.pdf" },
        { id := 3, jobId := some 4 }] 1 =
       ([{ id := 2, jobId := some 9, url := some "/uploads/b.pdf" },
         { id := 3, jobId := some 4 }],
        [(some "1/a.pdf", some "/uploads/a.pdf")], .okDeleted 1 (some 9)))
  ∧ (deleteUploadHandler (fun _ _ => .error "storage down")
       [{ id := 1, jobId := some 9, storageKey := some "1/a.pdf", url := some "/uploads/a.pdf" },
        { id := 2, jobId := some 9, url := some "/uploads/b.pdf" },
        { id := 3, jobId := some 4 }] 99 =
       ([{ id := 1, jobId := some 9, storageKey := some "1/a.pdf", url := some "/uploads/a.pdf" },
         { id := 2, jobId := some 9, url := some "/uploads/b.pdf" },
         { id := 3, jobId := some 4 }], [], .notFound))
  ∧ ((deleteJobAttachments (fun _ _ => .error "storage down")
       [{ id := 1, jobId := some 9, storageKey := some "1/a.pdf", url := some "/uploads/a.pdf" },
        { id := 2, jobId := some 9, url := some "/uploads/b.pdf" },
        { id := 3, jobId := some 4 }] 9).2.length = 2)
  ∧ ((deleteJobAttachments (fun _ _ => .error "storage down")
       [{ id := 1, jobId := some 9, storageKey := some "1/a.pdf", url := some "/uploads/a.pdf" },
        { id := 2, jobId := some 9, url := some "/uploads/b.pdf" },
        { id := 3, jobId := some 4 }] 9).1.filter
         (fun r => r.jobId == some 9) = []) :=
  ⟨((delete_cascade (fun _ _ => .error "storage down")
      [{ id := 1, jobId := some 9, storageKey := some "1/a.pdf", url := some "/uploads/a.pdf" },
       { id := 2, jobId := some 9, url := some "/uploads/b.pdf" },
       { id := 3, jobId := some 4 }] 1 9).2.1
      { id := 1, jobId := some 9, storageKey := some "1/a.pdf", url := some "/uploads/a.pdf" }
      (by decide)).trans (by decide),
   (delete_cascade (fun _ _ => .error "storage down")
      [{ id := 1, jobId := some 9, storageKey := some "1/a.pdf", url := some "/uploads/a.pdf" },
       { id := 2, jobId := some 9, url := some "/uploads/b.pdf" },
       { id := 3, jobId := some 4 }] 99 9).1 (by decide),
   ((delete_cascade (fun _ _ => .error "storage down")
      [{ id := 1, jobId := some 9, storageKey := some "1/a.pdf", url := some "/uploads/a.pdf" },
       { id := 2, jobId := some 9, url := some "/uploads/b.pdf" },
       { id := 3, jobId := some 4 }] 1 9).2.2.1).trans (by decide),
   (delete_cascade (fun _ _ => .error "storage down")
      [{ id := 1, jobId := some 9, storageKey := some "1/a.pdf", url := some "/uploads/a.pdf" },
       { id := 2, jobId := some 9, url := some "/uploads/b.pdf" },
       { id := 3, jobId := some 4 }] 1 9).2.2.2⟩

/-- Helper: a file removed by `filter` is no longer present. -/
theorem not_mem_filter_ne (l : List String) (x : String) :
    x ∉ l.filter (fun p => p ≠ x) := by
  intro hx
  have hpred := List.of_mem_filter hx
  simp at hpred

/-- C5 counterexample: with R2 configured, deleting the same attachment a
second time — on the state left by the first delete — returns `true`
again, because the provider delete call of an already-deleted key
succeeds (`blob.js` lines 306-313 return `true` whenever `client.send`
does not throw).  This refutes the claim's unqualified "a second delete
on the same already-deleted attachment returns `false`". -/
theorem repeat_delete_counterexample :
    (deleteBlob
      { r2AccessKeyId := some "k", r2SecretAccessKey := some "s",
        r2Bucket := some "b" }
      { localFiles :=
          (deleteBlob
            { r2AccessKeyId := some "k", r2SecretAccessKey := some "s",
              r2Bucket := some "b" }
            {} (some "5/a.pdf") none).2.2 }
      (some "5/a.pdf") none).1 = true := by
  decide

/-- C5 amended: `deleteBlob` never raises (it is total over every oracle,
including throwing provider calls and a throwing unlink) and returns
`true` exactly when some deletion actually occurred.  For a configuration
with no provider credentials (local storage), a second call on the
post-deletion state returns `false` rather than raising; with R2
configured, a repeat delete instead returns whatever the provider call
reports — `true` whenever the provider delete does not throw, since an
object-store delete of a missing key succeeds — still without raising. -/
theorem delete_best_effort (e : Env) (w : DeleteWorld) (k u : Option String) :
    ((deleteBlob e w k u).1 = true ↔ (deleteBlob e w k u).2.1 ≠ [])
  ∧ (hasR2 e = false → truthy (rwToken e) = false →
      (deleteBlob e { w with localFiles := (deleteBlob e w k u).2.2 } k u).1
        = false)
  ∧ (hasR2 e = true → r2ClientAvailable e = true → truthy k = true →
      w.r2DeleteThrows = false → (deleteBlob e w k u).1 = true) := by
  refine ⟨?iff, ?sec, ?rep⟩
  case rep =>
    intro h1 h2 h3 h4
    unfold deleteBlob
    simp [h1, h2, h3, h4]
  · unfold deleteBlob
    by_cases h1 : (hasR2 e && truthy k && r2ClientAvailable e && !w.r2DeleteThrows) = true
    · simp [h1]
    · rw [Bool.not_eq_true] at h1
      by_cases h2 : (truthy (rwToken e) && truthy k && !w.vercelDeleteThrows && w.vercelDeleteOk) = true
      · simp [h1, h2]
      · rw [Bool.not_eq_true] at h2
        cases u with
        | none => simp [h1, h2]
        | some s =>
            by_cases h3 : (!(s == "") && strStartsWith s "/uploads/") = true
            · by_cases h4 : ("public/" ++ dropLeadingSlash s) ∈ w.localFiles
              · by_cases h5 : w.unlinkThrows = true
                · simp [h1, h2, h3, h4, h5]
                · rw [Bool.not_eq_true] at h5
                  simp [h1, h2, h3, h4, h5]
              · simp [h1, h2, h3, h4]
            · rw [Bool.not_eq_true] at h3
              simp [h1, h2, h3]
  · intro hR2 hTok
    unfold deleteBlob
    simp only [hR2, hTok, Bool.false_and, Bool.and_false, Bool.false_and,
      Bool.and_true, if_false]
    cases u with
    | none => simp
    | some s =>
        by_cases h3 : (!(s == "") && strStartsWith s "/uploads/") = true
        · by_cases h4 : ("public/" ++ dropLeadingSlash s) ∈ w.localFiles
          · by_cases h5 : w.unlinkThrows = true
            · simp [h3, h4, h5]
            · rw [Bool.not_eq_true] at h5
              simp [h3, h4, h5, not_mem_filter_ne]
          · simp [h3, h4]
        · rw [Bool.not_eq_true] at h3
          simp [h3]

/-- Witness for `delete_best_effort`: deleting a local attachment removes
the file and returns `true`; in the credential-free configuration the
second delete of the same attachment returns `false`; with R2 configured
and a non-throwing provider a delete of any key returns `true`. -/
theorem delete_best_effort_witness :
    ((deleteBlob {} { localFiles := ["public/uploads/x.pdf"] } none
        (some "/uploads/x.pdf")).1 = true)
  ∧ ((deleteBlob {}
        { localFiles := (deleteBlob {} { localFiles := ["public/uploads/x.pdf"] }
            none (some "/uploads/x.pdf")).2.2 } none
        (some "/uploads/x.pdf")).1 = false)
  ∧ ((deleteBlob
        { r2AccessKeyId := some "k", r2SecretAccessKey := some "s",
          r2Bucket := some "b" } {} (some "5/a.pdf") none).1 = true) :=
  ⟨((delete_best_effort {} { localFiles := ["public/uploads/x.pdf"] } none
      (some "/uploads/x.pdf")).1).mpr (by decide),
   (delete_best_effort {} { localFiles := ["public/uploads/x.pdf"] } none
      (some "/uploads/x.pdf")).2.1 (by decide) (by decide),
   (delete_best_effort
      { r2AccessKeyId := some "k", r2SecretAccessKey := some "s",
        r2Bucket := some "b" } {} (some "5/a.pdf") none).2.2
     (by decide) (by decide) (by decide) (by decide)⟩

/-- C6: when the negotiated signed upload URL is cross-origin (its origin
differs from the page origin), the client routes through the server relay
(POST /api/uploads with the bytes and the pass-through `uploadUrl`) and
never issues a client-side PUT; when the relay fails, the error is
surfaced and still no client-side PUT follows. -/
theorem cross_origin_relay (pageOrigin : String) (parseOrigin : String → Option String)
    (body : CreateOut) (relayOk putOkB metaOk : Bool) (u o : String)
    (hu : clientUploadUrlOf body = some u)
    (ho : parseOrigin u = some o) (hne : o ≠ "") (hnp : o ≠ pageOrigin) :
    (uploadFileToServer pageOrigin parseOrigin true body relayOk putOkB metaOk).1 =
      [ClientAction.createReq, ClientAction.relayPost (some u)]
  ∧ (∀ v, ClientAction.clientPut v ∉
      (uploadFileToServer pageOrigin parseOrigin true body relayOk putOkB metaOk).1)
  ∧ (relayOk = false →
      (uploadFileToServer pageOrigin parseOrigin true body relayOk putOkB metaOk).2 =
        .error "server-side upload failed") := by
  have h1 : uploadFileToServer pageOrigin parseOrigin true body relayOk putOkB metaOk =
      ([ClientAction.createReq, ClientAction.relayPost (some u)],
       if relayOk then .ok () else .error "server-side upload failed") := by
    unfold uploadFileToServer
    rw [hu]
    simp [ho, hne, hnp]
  refine ⟨by rw [h1], ?_, ?_⟩
  · intro v
    rw [h1]
    simp
  · intro hr
    rw [h1, hr]
    simp

/-- Witness for `cross_origin_relay`: a concrete cross-origin signed URL
with a failing relay. -/
theorem cross_origin_relay_witness :
    ((uploadFileToServer "https://app.local" (fun _ => some "https://r2.example") true
        { uploadURL := some (some "https://r2.example/up") } false true true).1 =
      [ClientAction.createReq, ClientAction.relayPost (some "https://r2.example/up")])
  ∧ (∀ v, ClientAction.clientPut v ∉
      (uploadFileToServer "https://app.local" (fun _ => some "https://r2.example") true
        { uploadURL := some (some "https://r2.example/up") } false true true).1)
  ∧ ((uploadFileToServer "https://app.local" (fun _ => some "https://r2.example") true
        { uploadURL := some (some "https://r2.example/up") } false true true).2 =
      .error "server-side upload failed") :=
  ⟨(cross_origin_relay "https://app.local" (fun _ => some "https://r2.example")
      { uploadURL := some (some "https://r2.example/up") } false true true
      "https://r2.example/up" "https://r2.example" (by decide) rfl (by decide) (by decide)).1,
   (cross_origin_relay "https://app.local" (fun _ => some "https://r2.example")
      { uploadURL := some (some "https://r2.example/up") } false true true
      "https://r2.example/up" "https://r2.example" (by decide) rfl (by decide) (by decide)).2.1,
   (cross_origin_relay "https://app.local" (fun _ => some "https://r2.example")
      { uploadURL := some (some "https://r2.example/up") } false true true
      "https://r2.example/up" "https://r2.example" (by decide) rfl (by decide) (by decide)).2.2
      (by decide)⟩

/-- C7 counterexample: in a wholly unconfigured environment the create
endpoint's 200 response carries the provider-specific field `key`
(value `"uploads/a.txt"`) and no canonical `storageKey` field — refuting
the claim that the result is normalized to `{uploadUrl, url, storageKey}`
and that `uploadURL`/`signedUrl`/`key` never appear. -/
theorem create_no_canonicalization_counterexample :
    ((createUploadUrlHandler {} {} (some "a.txt")).2.bodyOf.map
        (fun b => b.key) = some (some (some "uploads/a.txt")))
  ∧ ((createUploadUrlHandler {} {} (some "a.txt")).2.bodyOf.map
        (fun b => b.storageKey) = some none)
  ∧ ((createUploadUrlHandler {} {} (some "a.txt")).2.bodyOf.map
        (fun b => b.uploadURL) = some (some none)) := by
  decide

/-- Helper: the no-token fallback object of `createSignedUrl` always
carries a `key` field, no `storageKey` field, and `fallback: true`. -/
theorem signedUrlFallback_fields (e : Env) (f : String) :
    (signedUrlFallback e f).key ≠ none ∧
    (signedUrlFallback e f).storageKey = none ∧
    (signedUrlFallback e f).fallback = true := by
  unfold signedUrlFallback
  by_cases hp : truthy e.vercelBlobPublicUrlPfx = true
  · simp [hp]
  · rw [Bool.not_eq_true] at hp
    simp [hp]

/-- Helper: without a read/write token, every successful `createSignedUrl`
result (R2-signed or fallback) uses the provider shape: a `key` field and
no `storageKey` field. -/
theorem createSignedUrl_no_token_shape (e : Env) (w : World) (f : String)
    (r : CreateOut)
    (hTok : truthy (rwToken e) = false)
    (hOk : (createSignedUrl e w f).2 = .ok r) :
    r.key ≠ none ∧ r.storageKey = none := by
  unfold createSignedUrl createSignedUrlR2 at hOk
  by_cases hca : r2ClientAvailable e = true
  · by_cases hth : w.r2SignThrows = true
    · simp only [hca, hth] at hOk
      by_cases he : enforce e = true
      · simp [hTok, he] at hOk
      · rw [Bool.not_eq_true] at he
        simp [hTok, he] at hOk
        rw [← hOk]
        exact ⟨(signedUrlFallback_fields e f).1, (signedUrlFallback_fields e f).2.1⟩
    · rw [Bool.not_eq_true] at hth
      simp only [hca, hth] at hOk
      simp at hOk
      rw [← hOk]
      exact ⟨by simp, rfl⟩
  · rw [Bool.not_eq_true] at hca
    simp only [hca] at hOk
    by_cases he : enforce e = true
    · simp [hTok, he] at hOk
    · rw [Bool.not_eq_true] at he
      simp [hTok, he] at hOk
      rw [← hOk]
      exact ⟨(signedUrlFallback_fields e f).1, (signedUrlFallback_fields e f).2.1⟩

/-- C7 amended: the create endpoint performs no canonicalization to
`{uploadUrl, url, storageKey}`: it returns the provider-shaped result of
`createSignedUrl` unchanged except that, when R2 is configured, the
`uploadURL`/`uploadUrl`/`signedUrl` fields are deleted.  In particular,
without a read/write token every 200 response carries the
provider-specific `key` field and never a `storageKey` field. -/
theorem create_endpoint_provider_shape (e : Env) (w : World) (f : String)
    (b : CreateOut)
    (hTok : truthy (rwToken e) = false)
    (hOk : (createUploadUrlHandler e w (some f)).2 = .ok b) :
    b.key ≠ none ∧ b.storageKey = none ∧
    (hasR2 e = true →
      b.uploadURL = none ∧ b.uploadUrl = none ∧ b.signedUrl = none) := by
  unfold createUploadUrlHandler at hOk
  by_cases hf : truthy (some f) = true
  · simp only [hf, Bool.not_true, Bool.false_eq_true, if_false] at hOk
    rcases hcs : createSignedUrl e w ((some f).getD "") with ⟨eff, res⟩
    rw [hcs] at hOk
    cases res with
    | error m => simp at hOk
    | ok body =>
        simp only [CreateResp.bodyOf] at hOk
        have hb := createSignedUrl_no_token_shape e w f body hTok (by
          have : (some f).getD "" = f := rfl
          rw [this] at hcs
          rw [hcs])
        by_cases hr2 : hasR2 e = true
        · simp only [hr2, if_true] at hOk
          simp at hOk
          rw [← hOk]
          exact ⟨hb.1, hb.2, fun _ => ⟨rfl, rfl, rfl⟩⟩
        · rw [Bool.not_eq_true] at hr2
          simp only [hr2] at hOk
          simp at hOk
          rw [← hOk]
          exact ⟨hb.1, hb.2, fun hc => absurd hc (by simp [hr2])⟩
  · rw [Bool.not_eq_true] at hf
    simp [hf] at hOk

/-- Witness for `create_endpoint_provider_shape`: the unconfigured
environment's fallback response. -/
theorem create_endpoint_provider_shape_witness :
    ({ uploadURL := some none, url := some (some "/uploads/a.txt"),
       key := some (some "uploads/a.txt"), fallback := true } : CreateOut).key ≠ none ∧
    ({ uploadURL := some none, url := some (some "/uploads/a.txt"),
       key := some (some "uploads/a.txt"), fallback := true } : CreateOut).storageKey = none ∧
    (hasR2 ({} : Env) = true →
      ({ uploadURL := some none, url := some (some "/uploads/a.txt"),
         key := some (some "uploads/a.txt"), fallback := true } : CreateOut).uploadURL = none ∧
      ({ uploadURL := some none, url := some (some "/uploads/a.txt"),
         key := some (some "uploads/a.txt"), fallback := true } : CreateOut).uploadUrl = none ∧
      ({ uploadURL := some none, url := some (some "/uploads/a.txt"),
         key := some (some "uploads/a.txt"), fallback := true } : CreateOut).signedUrl = none) :=
  create_endpoint_provider_shape {} {} "a.txt"
    { uploadURL := some none, url := some (some "/uploads/a.txt"),
      key := some (some "uploads/a.txt"), fallback := true }
    (by decide) (by decide)

/-- C9 counterexample: R2 fully configured with a public-URL prefix whose
origin equals the page origin.  The create endpoint scrubs the signed
upload URL, but the `url` field survives, the client picks it up as its
upload URL, finds it same-origin, and issues a client-side PUT — so not
every client upload is forced onto the server-relay path. -/
theorem r2_relay_counterexample :
    ((createUploadUrlHandler
        { r2AccessKeyId := some "k", r2SecretAccessKey := some "s",
          r2Bucket := some "b",
          r2PublicUrlPfx := some "https://app.local/files" } {}
        (some "a.txt")).2.bodyOf.map
      (fun b => (uploadFileToServer "https://app.local"
          (fun _ => some "https://app.local") true b true true true).1.contains
          (ClientAction.clientPut "https://app.local/files/a.txt")))
      = some true := by
  decide

/-- C9 amended: whenever the three R2 credentials are configured, the
create endpoint's 200 response has its `uploadURL`, `uploadUrl` and
`signedUrl` fields deleted, so the phase-1 response never carries a
signed upload URL; the client is consequently forced onto the
server-relay path whenever no residual URL-bearing field (`upload_url`,
`url`) survives with a truthy value — a same-origin surviving `url`
instead produces a direct client PUT (see the counterexample). -/
theorem r2_scrubs_upload_urls (e : Env) (w : World) (f : String) (b : CreateOut)
    (hR2 : hasR2 e = true)
    (hOk : (createUploadUrlHandler e w (some f)).2 = .ok b) :
    b.uploadURL = none ∧ b.uploadUrl = none ∧ b.signedUrl = none ∧
    (∀ pageOrigin parseOrigin relayOk putOkB metaOk,
      clientUploadUrlOf b = none →
      (uploadFileToServer pageOrigin parseOrigin true b relayOk putOkB metaOk).1 =
        [ClientAction.createReq, ClientAction.relayPost none]) := by
  unfold createUploadUrlHandler at hOk
  by_cases hf : truthy (some f) = true
  · simp only [hf, Bool.not_true, Bool.false_eq_true, if_false] at hOk
    rcases hcs : createSignedUrl e w ((some f).getD "") with ⟨eff, res⟩
    rw [hcs] at hOk
    cases res with
    | error m => simp at hOk
    | ok body =>
        simp only [hR2, if_true] at hOk
        simp at hOk
        rw [← hOk]
        refine ⟨rfl, rfl, rfl, ?_⟩
        intro pageOrigin parseOrigin relayOk putOkB metaOk hnone
        unfold uploadFileToServer
        rw [hnone]
        simp
  · rw [Bool.not_eq_true] at hf
    simp [hf] at hOk

/-- Witness for `r2_scrubs_upload_urls`: R2 configured with no public
prefix or endpoint — the scrubbed response has no truthy URL field and
the client relays through the server. -/
theorem r2_scrubs_upload_urls_witness :
    ({ url := some none, key := some (some "a.txt") } : CreateOut).uploadURL = none
  ∧ ({ url := some none, key := some (some "a.txt") } : CreateOut).uploadUrl = none
  ∧ ({ url := some none, key := some (some "a.txt") } : CreateOut).signedUrl = none
  ∧ ((uploadFileToServer "https://app.local" (fun _ => none) true
        { url := some none, key := some (some "a.txt") } true true true).1 =
      [ClientAction.createReq, ClientAction.relayPost none]) :=
  ⟨(r2_scrubs_upload_urls
      { r2AccessKeyId := some "k", r2SecretAccessKey := some "s", r2Bucket := some "b" }
      {} "a.txt" { url := some none, key := some (some "a.txt") }
      (by decide) (by decide)).1,
   (r2_scrubs_upload_urls
      { r2AccessKeyId := some "k", r2SecretAccessKey := some "s", r2Bucket := some "b" }
      {} "a.txt" { url := some none, key := some (some "a.txt") }
      (by decide) (by decide)).2.1,
   (r2_scrubs_upload_urls
      { r2AccessKeyId := some "k", r2SecretAccessKey := some "s", r2Bucket := some "b" }
      {} "a.txt" { url := some none, key := some (some "a.txt") }
      (by decide) (by decide)).2.2.1,
   (r2_scrubs_upload_urls
      { r2AccessKeyId := some "k", r2SecretAccessKey := some "s", r2Bucket := some "b" }
      {} "a.txt" { url := some none, key := some (some "a.txt") }
      (by decide) (by decide)).2.2.2
     "https://app.local" (fun _ => none) true true true (by decide)⟩

/-- C8: `GET /uploads/{id}` resolves in the preference order: local
`/uploads/` stream first, then signed-GET redirect for rows with a
storage key, then stored-URL redirect, and a 404 for ids with no row. -/
theorem get_upload_resolution (e : Env) (w : World) (files : List String)
    (rows : List AttRow) (i : Nat) :
    (rows.find? (fun r => r.id == i) = none →
       getUploadHandler e w files rows i = .notFound "not found")
  ∧ (∀ att, rows.find? (fun r => r.id == i) = some att →
       truthy att.url = true →
       strStartsWith (att.url.getD "") "/uploads/" = true →
       getUploadHandler e w files rows i =
         (if ("public/" ++ dropLeadingSlash (att.url.getD "")) ∈ files then
            .fileStream ("public/" ++ dropLeadingSlash (att.url.getD ""))
              (orDefault att.contentType "application/octet-stream")
          else .notFound "file not found"))
  ∧ (∀ att u, rows.find? (fun r => r.id == i) = some att →
       (truthy att.url && strStartsWith (att.url.getD "") "/uploads/") = false →
       signedRedirectOf e w att = some u →
       getUploadHandler e w files rows i = .redirect u)
  ∧ (∀ att, rows.find? (fun r => r.id == i) = some att →
       (truthy att.url && strStartsWith (att.url.getD "") "/uploads/") = false →
       signedRedirectOf e w att = none →
       truthy att.url = true →
       getUploadHandler e w files rows i = .redirect (att.url.getD ""))
  ∧ (∀ att, rows.find? (fun r => r.id == i) = some att →
       (truthy att.url && strStartsWith (att.url.getD "") "/uploads/") = false →
       signedRedirectOf e w att = none →
       truthy att.url = false →
       getUploadHandler e w files rows i = .notFound "no file URL available") := by
  refine ⟨?_, ?_, ?_, ?_, ?_⟩
  · intro h
    unfold getUploadHandler
    rw [h]
  · intro att h h1 h2
    unfold getUploadHandler
    rw [h]
    simp [h1, h2]
  · intro att u h h1 h2
    unfold getUploadHandler
    rw [h]
    simp [h1, h2]
  · intro att h h1 h2 h3
    have h4 : strStartsWith (att.url.getD "") "/uploads/" = false := by
      rw [h3] at h1
      simpa using h1
    unfold getUploadHandler
    rw [h]
    simp [h1, h2, h3, h4]
  · intro att h h1 h2 h3
    unfold getUploadHandler
    rw [h]
    simp [h1, h2, h3]

/-- Witness for `get_upload_resolution`: one concrete scenario per branch
(missing row, local stream, signed-GET redirect, stored-URL redirect,
no-URL 404). -/
theorem get_upload_resolution_witness :
    (getUploadHandler {} {} [] [] 5 = .notFound "not found")
  ∧ (getUploadHandler {} {} ["public/uploads/a.pdf"]
       [{ id := 5, url := some "/uploads/a.pdf", contentType := some "application/pdf" }] 5 =
       .fileStream "public/uploads/a.pdf" "application/pdf")
  ∧ (getUploadHandler
       { r2AccessKeyId := some "k", r2SecretAccessKey := some "s", r2Bucket := some "b" }
       {} [] [{ id := 5, storageKey := some "5/a.pdf" }] 5 =
       .redirect "https://r2.example/signed-get")
  ∧ (getUploadHandler {} {} [] [{ id := 5, url := some "https://pub.example/a.pdf" }] 5 =
       .redirect "https://pub.example/a.pdf")
  ∧ (getUploadHandler {} {} [] [{ id := 5 }] 5 = .notFound "no file URL available") :=
  ⟨(get_upload_resolution {} {} [] [] 5).1 (by decide),
   ((get_upload_resolution {} {} ["public/uploads/a.pdf"]
       [{ id := 5, url := some "/uploads/a.pdf", contentType := some "application/pdf" }] 5).2.1
     { id := 5, url := some "/uploads/a.pdf", contentType := some "application/pdf" }
     (by decide) (by decide) (by decide)).trans (by decide),
   (get_upload_resolution
       { r2AccessKeyId := some "k", r2SecretAccessKey := some "s", r2Bucket := some "b" }
       {} [] [{ id := 5, storageKey := some "5/a.pdf" }] 5).2.2.1
     { id := 5, storageKey := some "5/a.pdf" } "https://r2.example/signed-get"
     (by decide) (by decide) (by decide),
   (get_upload_resolution {} {} [] [{ id := 5, url := some "https://pub.example/a.pdf" }] 5).2.2.2.1
     { id := 5, url := some "https://pub.example/a.pdf" }
     (by decide) (by decide) (by decide) (by decide),
   (get_upload_resolution {} {} [] [{ id := 5 }] 5).2.2.2.2
     { id := 5 } (by decide) (by decide) (by decide) (by decide)⟩

/-- Helper: appending a row with a fresh id and filtering it back out
restores the original table. -/
theorem filter_ne_append_fresh (rows : List AttRow) (nid : Nat) (row : AttRow)
    (hrow : row.id = nid)
    (hfresh : ∀ r ∈ rows, r.id ≠ nid) :
    (rows ++ [row]).filter (fun r => !(r.id == nid)) = rows := by
  induction rows with
  | nil => simp [List.filter_cons, hrow]
  | cons a as ih =>
      have ha : a.id ≠ nid := hfresh a (by simp)
      have ih2 := ih (fun r hr => hfresh r (by simp [hr]))
      simp only [List.cons_append, List.filter_cons]
      simp [ha, ih2]

/-- C10: a server-relay upload (`contentBase64` mode) first inserts a
metadata row with null storage fields to obtain the id, saves the bytes
under the storage key `"<id>/<filename>"`, and when the save raises it
deletes the fresh row before returning the upstream-failure response —
the table is left exactly as it was. -/
theorem relay_upload_cleanup (e : Env) (w : World) (rows : List AttRow)
    (nid : Nat) (jobId : Option Nat) (cb64 ct uu : Option String)
    (bufLen : Nat) (f : String)
    (hf : f ≠ "")
    (hcb : truthy cb64 = true)
    (hfresh : ∀ r ∈ rows, r.id ≠ nid) :
    ((uploadsPostHandler e w rows nid jobId (some f) cb64 ct none none none uu bufLen).2.1 =
       [toString nid ++ "/" ++ f])
  ∧ (∀ m, (save e w (toString nid ++ "/" ++ f) bufLen uu none).2 = .error m →
       (uploadsPostHandler e w rows nid jobId (some f) cb64 ct none none none uu bufLen).1 = rows
     ∧ (uploadsPostHandler e w rows nid jobId (some f) cb64 ct none none none uu bufLen).2.2 =
         .badGateway m) := by
  have hTf : truthy (some f) = true := by simp [truthy, hf]
  refine ⟨?_, ?_⟩
  · unfold uploadsPostHandler
    simp only [truthy_none, Bool.false_and, Bool.and_false, if_false]
    rcases hs : save e w (toString nid ++ "/" ++ f) bufLen uu none with ⟨eff, res⟩
    simp only [hTf, hcb, Option.getD_some]
    rw [hs]
    cases res <;> simp
  · intro m hm
    unfold uploadsPostHandler
    simp only [truthy_none, Bool.false_and, Bool.and_false, if_false]
    rcases hs : save e w (toString nid ++ "/" ++ f) bufLen uu none with ⟨eff, res⟩
    rw [hs] at hm
    simp only at hm
    subst hm
    simp only [hTf, hcb, Option.getD_some]
    rw [hs]
    simp only
    constructor
    · exact filter_ne_append_fresh rows nid _ rfl hfresh
    · rfl

/-- Witness for `relay_upload_cleanup`: an `r2` provider override without
credentials makes `blob.save` raise; the row inserted under id 7 is
removed again and the handler reports the upstream failure. -/
theorem relay_upload_cleanup_witness :
    ((uploadsPostHandler { blobProvider := some "r2" } {}
        [{ id := 3, jobId := some 1 }] 7 (some 1) (some "cv.pdf") (some "QUJD")
        none none none none none 3).2.1 = ["7/cv.pdf"])
  ∧ ((uploadsPostHandler { blobProvider := some "r2" } {}
        [{ id := 3, jobId := some 1 }] 7 (some 1) (some "cv.pdf") (some "QUJD")
        none none none none none 3).1 = [{ id := 3, jobId := some 1 }])
  ∧ ((uploadsPostHandler { blobProvider := some "r2" } {}
        [{ id := 3, jobId := some 1 }] 7 (some 1) (some "cv.pdf") (some "QUJD")
        none none none none none 3).2.2 =
      .badGateway "R2 client not configured (missing R2_ACCESS_KEY_ID / R2_SECRET_ACCESS_KEY / R2_BUCKET)") :=
  ⟨(relay_upload_cleanup { blobProvider := some "r2" } {} [{ id := 3, jobId := some 1 }]
      7 (some 1) (some "QUJD") none none 3 "cv.pdf"
      (by decide) (by decide) (by decide)).1,
   ((relay_upload_cleanup { blobProvider := some "r2" } {} [{ id := 3, jobId := some 1 }]
      7 (some 1) (some "QUJD") none none 3 "cv.pdf"
      (by decide) (by decide) (by decide)).2
      "R2 client not configured (missing R2_ACCESS_KEY_ID / R2_SECRET_ACCESS_KEY / R2_BUCKET)"
      (by decide)).1,
   ((relay_upload_cleanup { blobProvider := some "r2" } {} [{ id := 3, jobId := some 1 }]
      7 (some 1) (some "QUJD") none none 3 "cv.pdf"
      (by decide) (by decide) (by decide)).2
      "R2 client not configured (missing R2_ACCESS_KEY_ID / R2_SECRET_ACCESS_KEY / R2_BUCKET)"
      (by decide)).2⟩

end JobTracker
